import Mathlib

/-!
Verification of the cafa-tickets-backend purchase/settlement/withdrawal
state machine against its natural-language specification.

The definitions below are a shallow embedding of the Python/Django source:

* `tickets/models.py`           — data model (`TicketType`, `Purchase`,
  `Payment`, `Ticket`, `OrganizerRevenue`, `WithdrawalRequest`) including the
  side effect of `Purchase.save` (automatic revenue-record creation on the
  transition to `completed`).
* `tickets/payment_views.py`    — `initiate_payment`, `verify_payment`.
* `tickets/purchase_views.py`   — `InitiatePurchaseView.post`,
  `PaymentWebhookView._handle_successful_payment`, `CancelPurchaseView.post`.
* `tickets/ticket_dashboard_views.py` — `CheckInTicketView.post`.
* `users/paystack_webhooks.py`  — `handle_transfer_success` /
  `handle_transfer_failed` / `handle_transfer_reversed`.
* `users/payment_views.py`      — `CreateWithdrawalRequestView._reserve_revenue`.
* `users/paystack_service.py`   — `PaystackTransferService.verify_bank_account`.

Conventions: Django `DecimalField` money is embedded as fixed-point `Int`
at scale 1/10000 GHS (every amount these code paths produce has at most
four decimal places — prices have two, and the only multiplications are by
an integer quantity and by the 5% platform rate — so the `Decimal`
arithmetic of the source and this embedding agree exactly), Python `int`
counters as `Int`
(so that unclamped decrements are represented faithfully), timestamps as
`Int`, and database tables as Lean lists.  External HTTP calls (Paystack)
are parameters: the caller of an operation supplies the gateway outcome.
-/

namespace Cafa

/-- Status choices of `Purchase` (models.py `Purchase.STATUS_CHOICES`). -/
inductive PStatus where
  | reserved | pending | completed | failed | expired
  deriving DecidableEq, Repr

/-- Status choices of `Payment` (models.py `Payment.STATUS_CHOICES`). -/
inductive PayStatus where
  | pending | completed | failed
  deriving DecidableEq, Repr

/-- Status choices of `Ticket` (models.py `Ticket.STATUS_CHOICES`). -/
inductive TStatus where
  | reserved | paid | cancelled | used | expired
  deriving DecidableEq, Repr

/-- Status choices of `OrganizerRevenue` (models.py). -/
inductive RevStatus where
  | pending | available | withdrawn | on_hold
  deriving DecidableEq, Repr

/-- Status choices of `WithdrawalRequest` (models.py). -/
inductive WStatus where
  | pending | approved | processing | completed | rejected | failed
  deriving DecidableEq, Repr

/-- A money amount: fixed-point integer at scale 1/10000 GHS. -/
abbrev Money := Int

/-- `n` whole GHS as a `Money` amount. -/
def ghs (n : Nat) : Money := (n : Int) * 10000

/-- `m × Decimal('0.05')`: the 5% rate applied by the pricing and
settlement paths.  Exact for every amount with at most two decimal places,
which is all this code produces as input to it. -/
def platformShare (m : Money) : Money := m * 5 / 100

/-- `tickets.models.TicketType`: the fields read or written by the purchase
flow.  `tickets_sold` is a Python `int` in memory, embedded as `Int` because
the failure path of `verify_payment` decrements it without a lower bound. -/
structure TicketType where
  id : Nat
  quantity : Nat
  tickets_sold : Int
  price : Money
  min_purchase : Nat
  max_purchase : Nat
  available_from : Option Int := none
  available_until : Option Int := none
  deriving DecidableEq, Repr

/-- `TicketType.tickets_remaining` (models.py). -/
def ticketsRemaining (t : TicketType) : Int :=
  (t.quantity : Int) - t.tickets_sold

/-- `TicketType.is_available` (models.py): sold out check plus the optional
availability window against the current time. -/
def ticketTypeIsAvailable (now : Int) (t : TicketType) : Bool :=
  if ticketsRemaining t ≤ 0 then false
  else if h : t.available_from.isSome then
    if now < t.available_from.get h then false
    else availUntilOk now t
  else availUntilOk now t
where
  availUntilOk (now : Int) (t : TicketType) : Bool :=
    match t.available_until with
    | some u => decide (¬ now > u)
    | none => true

/-- `tickets.models.Purchase`: the fields the purchase flow reads or writes.
`organizer_id` flattens the `purchase.event.organizer` foreign-key chain. -/
structure Purchase where
  id : Nat
  ticket_type_id : Nat
  organizer_id : Nat
  quantity : Nat
  ticket_price : Money
  subtotal : Money
  service_fee : Money
  total : Money
  status : PStatus
  reservation_expires_at : Int
  completed_at : Option Int := none
  deriving DecidableEq, Repr

/-- `tickets.models.Payment`.  The gateway `reference` is embedded as the
numeric key used to look the payment up. -/
structure Payment where
  reference : Nat
  purchase_id : Nat
  amount : Money
  status : PayStatus
  completed_at : Option Int := none
  failed_at : Option Int := none
  deriving DecidableEq, Repr

/-- `tickets.models.Ticket`: the fields the purchase and check-in flows
touch. -/
structure Ticket where
  id : Nat
  purchase_id : Nat
  status : TStatus
  is_checked_in : Bool := false
  deriving DecidableEq, Repr

/-- `tickets.models.OrganizerRevenue`. -/
structure OrganizerRevenue where
  id : Nat
  organizer_id : Nat
  purchase_id : Nat
  ticket_sales_amount : Money
  platform_fee : Money
  organizer_earnings : Money
  status : RevStatus
  is_withdrawn : Bool := false
  withdrawal : Option Nat := none
  deriving DecidableEq, Repr

/-- The database rows the ticket-purchase flow touches; `next_id` models the
primary-key/identifier generator. -/
structure DB where
  ticket_types : List TicketType
  purchases : List Purchase
  payments : List Payment
  tickets : List Ticket
  revenues : List OrganizerRevenue
  next_id : Nat
  deriving DecidableEq, Repr

def findTicketType (db : DB) (i : Nat) : Option TicketType :=
  db.ticket_types.find? (fun t => t.id == i)

def findPurchase (db : DB) (i : Nat) : Option Purchase :=
  db.purchases.find? (fun p => p.id == i)

def findPaymentByRef (db : DB) (r : Nat) : Option Payment :=
  db.payments.find? (fun p => p.reference == r)

/-- `Payment.objects.get(purchase=purchase)`: the one-to-one lookup used by
the payment webhook. -/
def findPaymentByPurchase (db : DB) (i : Nat) : Option Payment :=
  db.payments.find? (fun p => p.purchase_id == i)

/-- `ticket_type.tickets_sold += d; ticket_type.save()`. -/
def updateSold (l : List TicketType) (i : Nat) (d : Int) : List TicketType :=
  l.map (fun t => if t.id == i then { t with tickets_sold := t.tickets_sold + d } else t)

/-- `tickets_sold` of ticket type `i`, for stating properties. -/
def soldOf (db : DB) (i : Nat) : Option Int :=
  (findTicketType db i).map (fun t => t.tickets_sold)

/-- `Purchase._create_revenue_record` (models.py lines 557-577). -/
def mkRevenueRecord (rid : Nat) (p : Purchase) : OrganizerRevenue :=
  let platform_fee := platformShare p.subtotal
  { id := rid
    organizer_id := p.organizer_id
    purchase_id := p.id
    ticket_sales_amount := p.subtotal
    platform_fee := platform_fee
    organizer_earnings := p.subtotal - platform_fee
    status := RevStatus.pending }

/-- `Purchase.save` (models.py lines 533-555): store the new row state and,
when the stored status was not `completed` and the new one is, create an
`OrganizerRevenue` record as a side effect. -/
def purchaseSave (db : DB) (p : Purchase) : DB :=
  let is_new_completion :=
    match findPurchase db p.id with
    | some old => old.status != PStatus.completed && p.status == PStatus.completed
    | none => false
  let db1 := { db with
    purchases := db.purchases.map (fun q => if q.id == p.id then p else q) }
  if is_new_completion then
    { db1 with
        revenues := db1.revenues ++ [mkRevenueRecord db1.next_id p]
        next_id := db1.next_id + 1 }
  else db1

def paymentSave (db : DB) (p : Payment) : DB :=
  { db with payments := db.payments.map (fun q => if q.reference == p.reference then p else q) }

def ticketSave (db : DB) (t : Ticket) : DB :=
  { db with tickets := db.tickets.map (fun u => if u.id == t.id then t else u) }

/-- `Purchase.is_expired` (models.py lines 579-582): a read-only property;
true only when the expiry has passed AND the status is still `reserved`. -/
def purchaseIsExpired (now : Int) (p : Purchase) : Bool :=
  decide (now > p.reservation_expires_at) && decide (p.status = PStatus.reserved)

/-- `timedelta(minutes=10)` in seconds: the reservation window set by
`Purchase.save`. -/
def reservationWindow : Int := 10 * 60

/-- The `Purchase` row built by both initiation endpoints: pricing snapshot
`subtotal = price × qty`, `service_fee = subtotal × 0.05`,
`total = subtotal + service_fee`, expiry `now + 10 minutes`. -/
def mkPurchase (pid ttId org qty : Nat) (price : Money) (now : Int) (st : PStatus) :
    Purchase :=
  let subtotal := price * (qty : Int)
  let service_fee := platformShare subtotal
  { id := pid
    ticket_type_id := ttId
    organizer_id := org
    quantity := qty
    ticket_price := price
    subtotal := subtotal
    service_fee := service_fee
    total := subtotal + service_fee
    status := st
    reservation_expires_at := now + reservationWindow }

/-! ## `tickets/payment_views.py` — `initiate_payment`

Validation happens before the transaction (errors leave the database
untouched); inside the transaction the ticket type's `tickets_sold` is
incremented FIRST, then the `Purchase` row is created with status
`pending`, then Paystack is called.  On gateway failure the increment is
reverted and the `Purchase` row is deleted; on success a `Payment` row is
created.  The buyer-contact fields only flow into the response/metadata and
are not modelled; `event_published` stands for the
`Event.objects.get(slug=…, is_published=True)` lookup. -/

/-- The state of `initiate_payment` at the moment the gateway is called:
`none` when a validation failed (no mutation), otherwise the mutated
database together with the created `Purchase`. -/
def initiatePaymentReserve (db : DB) (now : Int) (ttId qty org : Nat)
    (event_published : Bool) : Option (DB × Purchase) :=
  if qty < 1 then none
  else if ¬ event_published then none
  else
    match findTicketType db ttId with
    | none => none
    | some tt =>
      if ¬ ticketTypeIsAvailable now tt then none
      else if ticketsRemaining tt < (qty : Int) then none
      else if qty < tt.min_purchase then none
      else if qty > tt.max_purchase then none
      else
        let purchase := mkPurchase db.next_id ttId org qty tt.price now PStatus.pending
        some ({ db with
                  ticket_types := updateSold db.ticket_types ttId (qty : Int)
                  purchases := db.purchases ++ [purchase]
                  next_id := db.next_id + 1 }, purchase)

inductive InitPaymentResult where
  | err (db : DB)
  | ok (db : DB) (purchase_id reference : Nat)
  deriving DecidableEq, Repr

def InitPaymentResult.db : InitPaymentResult → DB
  | .err d => d
  | .ok d _ _ => d

/-- `initiate_payment` (payment_views.py lines 19-203). -/
def initiate_payment (db : DB) (now : Int) (ttId qty org : Nat)
    (event_published gatewayOk : Bool) : InitPaymentResult :=
  match initiatePaymentReserve db now ttId qty org event_published with
  | none => .err db
  | some (db1, purchase) =>
    if gatewayOk then
      let payment : Payment :=
        { reference := db1.next_id
          purchase_id := purchase.id
          amount := purchase.total
          status := PayStatus.pending }
      .ok { db1 with
              payments := db1.payments ++ [payment]
              next_id := db1.next_id + 1 }
        purchase.id payment.reference
    else
      -- rollback: `tickets_sold -= quantity; save(); purchase.delete()`
      .err { db1 with
               ticket_types := updateSold db1.ticket_types ttId (-(qty : Int))
               purchases := db1.purchases.filter (fun p => p.id != purchase.id) }

/-! ## `tickets/purchase_views.py` — `InitiatePurchaseView.post`

The serializer validates (event published and `upcoming`, ticket type
available, quantity within min/max and remaining); the view then creates a
`reserved` Purchase and `quantity` placeholder Tickets in `reserved`
status — WITHOUT touching `tickets_sold` — and only then calls Paystack.
On gateway failure the Purchase becomes `failed` and its Tickets `expired`;
on success a `pending` Payment is created and the Purchase becomes
`pending`.  The source iterates over the ticket objects it just created;
since primary keys are unique these are exactly the rows with this
purchase's id, and the loop is embedded as a map over them. -/

/-- The tickets minted in `reserved` status by `InitiatePurchaseView`. -/
def mkReservedTickets (firstId pid qty : Nat) : List Ticket :=
  (List.range qty).map (fun k =>
    { id := firstId + k, purchase_id := pid, status := TStatus.reserved })

/-- The state of `InitiatePurchaseView.post` at the moment the gateway is
called: `none` when the serializer rejected the request (no mutation). -/
def initiatePurchaseReserve (db : DB) (now : Int) (ttId qty org : Nat)
    (event_upcoming : Bool) : Option (DB × Purchase) :=
  if qty < 1 then none
  else if ¬ event_upcoming then none
  else
    match findTicketType db ttId with
    | none => none
    | some tt =>
      if ¬ ticketTypeIsAvailable now tt then none
      else if qty < tt.min_purchase then none
      else if qty > tt.max_purchase then none
      else if (qty : Int) > ticketsRemaining tt then none
      else
        let purchase := mkPurchase db.next_id ttId org qty tt.price now PStatus.reserved
        some ({ db with
                  purchases := db.purchases ++ [purchase]
                  tickets := db.tickets ++ mkReservedTickets (db.next_id + 1) purchase.id qty
                  next_id := db.next_id + 1 + qty }, purchase)

inductive InitPurchaseResult where
  | err (db : DB)
  | ok (db : DB) (purchase_id reference : Nat)
  deriving DecidableEq, Repr

def InitPurchaseResult.db : InitPurchaseResult → DB
  | .err d => d
  | .ok d _ _ => d

/-- `InitiatePurchaseView.post` (purchase_views.py lines 30-155). -/
def initiate_purchase (db : DB) (now : Int) (ttId qty org : Nat)
    (event_upcoming gatewayOk : Bool) : InitPurchaseResult :=
  match initiatePurchaseReserve db now ttId qty org event_upcoming with
  | none => .err db
  | some (db1, purchase) =>
    if gatewayOk then
      let payment : Payment :=
        { reference := db1.next_id
          purchase_id := purchase.id
          amount := purchase.total
          status := PayStatus.pending }
      let db2 : DB := { db1 with
        payments := db1.payments ++ [payment]
        next_id := db1.next_id + 1 }
      .ok (purchaseSave db2 { purchase with status := PStatus.pending })
        purchase.id payment.reference
    else
      let db2 : DB := purchaseSave db1 { purchase with status := PStatus.failed }
      .err { db2 with tickets := db2.tickets.map (fun t =>
               if t.purchase_id == purchase.id then { t with status := TStatus.expired } else t) }

/-! ## `tickets/purchase_views.py` — `PaymentWebhookView._handle_successful_payment`

Runs on every `charge.success` webhook whose metadata carries a known
purchase id, WITHOUT checking the current Payment/Purchase status: it marks
the Payment and Purchase `completed` (the `Purchase.save` side effect
creates the revenue record on a fresh completion), flips every ticket of
the purchase to `paid`, and unconditionally adds `purchase.quantity` to the
ticket type's `tickets_sold`. -/
def handle_successful_payment (db : DB) (purchaseId : Nat) (now : Int) : DB :=
  match findPurchase db purchaseId with
  | none => db
  | some purchase =>
    match findPaymentByPurchase db purchaseId with
    | none => db
    | some payment =>
      let db1 : DB := paymentSave db
        { payment with status := PayStatus.completed, completed_at := some now }
      let db2 : DB := purchaseSave db1
        { purchase with status := PStatus.completed, completed_at := some now }
      let db3 : DB := { db2 with tickets := db2.tickets.map (fun t =>
        if t.purchase_id == purchaseId then { t with status := TStatus.paid } else t) }
      { db3 with ticket_types :=
          updateSold db3.ticket_types purchase.ticket_type_id (purchase.quantity : Int) }

/-- The outcome of `verify_paystack_payment` plus the `data['status']`
check, as seen by `verify_payment`. -/
inductive GatewayVerify where
  | err        -- `verification_result['success']` is false
  | notSuccess -- verified but `data['status'] != 'success'`
  | success
  deriving DecidableEq, Repr

/-! ## `tickets/payment_views.py` — `verify_payment`

Early-returns with no mutation when the Payment is already `completed`.
On a failed verification it marks Payment and Purchase `failed` and
decrements `tickets_sold` by the purchase quantity (no clamp, and nothing
stops a later retry from decrementing again).  On success it marks Payment
and Purchase `completed` (the `Purchase.save` side effect creates one
revenue record), mints `quantity` tickets directly in `paid` status, and
then EXPLICITLY creates a second `OrganizerRevenue` row
(payment_views.py lines 357-374). -/
def verify_payment_op (db : DB) (reference : Nat) (g : GatewayVerify) (now : Int) : DB :=
  match findPaymentByRef db reference with
  | none => db
  | some payment =>
    if payment.status = PayStatus.completed then db
    else
      match findPurchase db payment.purchase_id with
      | none => db
      | some purchase =>
        match g with
        | .err | .notSuccess =>
          let db1 : DB := paymentSave db
            { payment with status := PayStatus.failed, failed_at := some now }
          let db2 : DB := purchaseSave db1 { purchase with status := PStatus.failed }
          { db2 with ticket_types :=
              updateSold db2.ticket_types purchase.ticket_type_id (-(purchase.quantity : Int)) }
        | .success =>
          let db1 : DB := paymentSave db
            { payment with status := PayStatus.completed, completed_at := some now }
          let purchase1 : Purchase := { purchase with status := PStatus.completed, completed_at := some now }
          let db2 : DB := purchaseSave db1 purchase1
          let newTickets := (List.range purchase.quantity).map (fun k =>
            { id := db2.next_id + k, purchase_id := purchase.id,
              status := TStatus.paid : Ticket })
          let db3 := { db2 with tickets := db2.tickets ++ newTickets,
                                next_id := db2.next_id + purchase.quantity }
          { db3 with revenues := db3.revenues ++ [mkRevenueRecord db3.next_id purchase1],
                     next_id := db3.next_id + 1 }

/-! ## `tickets/purchase_views.py` — `CancelPurchaseView.post`

Only `reserved`/`pending` purchases can be cancelled.  Tickets still in
`reserved` status are flipped to `expired` and counted (the source also
names a `'pending'` ticket status in this check, which no code path ever
assigns and which is not among `Ticket.STATUS_CHOICES`); `tickets_sold` is
then decreased by the released count, clamped at zero with `max(0, …)`. -/
def cancel_purchase (db : DB) (purchaseId : Nat) : DB :=
  match findPurchase db purchaseId with
  | none => db
  | some purchase =>
    if purchase.status ≠ PStatus.reserved ∧ purchase.status ≠ PStatus.pending then db
    else
      let db1 : DB := purchaseSave db { purchase with status := PStatus.expired }
      let released := (db1.tickets.filter (fun t =>
        t.purchase_id == purchaseId && t.status == TStatus.reserved)).length
      let db2 := { db1 with tickets := db1.tickets.map (fun t =>
        if t.purchase_id == purchaseId && t.status == TStatus.reserved
        then { t with status := TStatus.expired } else t) }
      if released > 0 then
        { db2 with ticket_types := db2.ticket_types.map (fun t =>
            if t.id == purchase.ticket_type_id
            then { t with tickets_sold := max 0 (t.tickets_sold - (released : Int)) }
            else t) }
      else db2

/-! ## `tickets/ticket_dashboard_views.py` — `CheckInTicketView.post`

The routed check-in endpoint.  After the event-ownership and event-match
guards (error responses without mutation, modelled by calling the operation
on tickets of the handler's event) the ONLY remaining guard is
`is_checked_in` under a `single_entry` policy: the ticket's payment status
is never consulted before it is stamped `used`. -/
def check_in_ticket (db : DB) (ticketId : Nat) (single_entry : Bool) : DB :=
  match db.tickets.find? (fun t => t.id == ticketId) with
  | none => db
  | some t =>
    if t.is_checked_in && single_entry then db
    else ticketSave db { t with is_checked_in := true, status := TStatus.used }

/-! ## `users/paystack_webhooks.py` — transfer-webhook reconciliation -/

/-- `tickets.models.WithdrawalRequest`: the fields the transfer webhooks
read or write.  `id` stands for `withdrawal_id`, which is also the transfer
reference Paystack echoes back. -/
structure WithdrawalRequest where
  id : Nat
  organizer_id : Nat
  requested_amount : Money
  transfer_fee : Money
  final_amount : Money
  status : WStatus
  rejection_reason : String := ""
  completed_at : Option Int := none
  deriving DecidableEq, Repr

/-- The rows touched by the transfer webhooks and the withdrawal engine. -/
structure WDB where
  withdrawals : List WithdrawalRequest
  revenues : List OrganizerRevenue
  deriving DecidableEq, Repr

def findWithdrawal (db : WDB) (reference : Nat) : Option WithdrawalRequest :=
  db.withdrawals.find? (fun w => w.id == reference)

/-- `handle_transfer_success` (paystack_webhooks.py lines 64-88): the
request becomes `completed` with a completion stamp; the linked revenue
rows get `is_withdrawn=True` — their `status` column is NOT changed. -/
def handle_transfer_success (db : WDB) (reference : Nat) (now : Int) : WDB :=
  match findWithdrawal db reference with
  | none => db
  | some w =>
    let db1 : WDB := { db with withdrawals := db.withdrawals.map (fun v =>
      if v.id == w.id then { v with status := WStatus.completed, completed_at := some now }
      else v) }
    { db1 with revenues := db1.revenues.map (fun e =>
        if e.withdrawal == some w.id then { e with is_withdrawn := true } else e) }

/-- `handle_transfer_failed` (paystack_webhooks.py lines 90-115): the
request becomes `failed` with the reason recorded; the linked revenue rows
are released (`withdrawal=None`, `status='available'`). -/
def handle_transfer_failed (db : WDB) (reference : Nat) (reason : String) : WDB :=
  match findWithdrawal db reference with
  | none => db
  | some w =>
    let db1 : WDB := { db with withdrawals := db.withdrawals.map (fun v =>
      if v.id == w.id then { v with status := WStatus.failed, rejection_reason := reason }
      else v) }
    { db1 with revenues := db1.revenues.map (fun e =>
        if e.withdrawal == some w.id
        then { e with withdrawal := none, status := RevStatus.available } else e) }

/-- `handle_transfer_reversed` (paystack_webhooks.py lines 118-141): the
request becomes `failed`; but the revenue update only filters rows with
`is_withdrawn=True` and clears that flag — `withdrawal` stays linked and
`status` stays whatever it was (`on_hold` for a reserved entry). -/
def handle_transfer_reversed (db : WDB) (reference : Nat) : WDB :=
  match findWithdrawal db reference with
  | none => db
  | some w =>
    let db1 : WDB := { db with withdrawals := db.withdrawals.map (fun v =>
      if v.id == w.id
      then { v with status := WStatus.failed, rejection_reason := "Transfer was reversed" }
      else v) }
    { db1 with revenues := db1.revenues.map (fun e =>
        if e.withdrawal == some w.id && e.is_withdrawn
        then { e with is_withdrawn := false } else e) }

/-! ## `users/payment_views.py` — `CreateWithdrawalRequestView._reserve_revenue` -/

/-- The filter of the queryset `_reserve_revenue` iterates over:
`organizer=…, status='available', is_withdrawn=False, withdrawal__isnull=True`. -/
def revenueEligible (org : Nat) (e : OrganizerRevenue) : Bool :=
  e.organizer_id == org && e.status == RevStatus.available
    && !e.is_withdrawn && e.withdrawal == none

/-- The reservation loop of `_reserve_revenue` over the entries in
`created_at` order (the input list order), carrying `amount_reserved` in
`acc`.  The loop breaks as soon as `amount_reserved >= amount`, leaving the
remaining rows untouched; rows outside the queryset filter are untouched
and not counted either way, so iterating over all rows and skipping the
ineligible ones is the same function as iterating the filtered queryset. -/
def reserveRevenueAux (wid org : Nat) (amount : Money) :
    List OrganizerRevenue → Money → List OrganizerRevenue
  | [], _ => []
  | e :: rest, acc =>
    if amount ≤ acc then e :: rest
    else if revenueEligible org e then
      { e with withdrawal := some wid, status := RevStatus.on_hold } ::
        reserveRevenueAux wid org amount rest (acc + e.organizer_earnings)
    else e :: reserveRevenueAux wid org amount rest acc

/-- `_reserve_revenue` (users/payment_views.py lines 466-486). -/
def reserve_revenue (entries : List OrganizerRevenue) (wid org : Nat)
    (amount : Money) : List OrganizerRevenue :=
  reserveRevenueAux wid org amount entries 0

/-- The available balance the creation endpoint checks before reserving,
restricted to the rows the reservation loop may touch. -/
def eligibleSum (org : Nat) (l : List OrganizerRevenue) : Money :=
  ((l.filter (revenueEligible org)).map (fun e => e.organizer_earnings)).sum

/-- Total `organizer_earnings` across the entries linked to withdrawal
`wid`. -/
def linkedEarnings (wid : Nat) (l : List OrganizerRevenue) : Money :=
  ((l.filter (fun e => e.withdrawal == some wid)).map (fun e => e.organizer_earnings)).sum

/-! ## `users/paystack_service.py` — `PaystackTransferService.verify_bank_account` -/

/-- `PaymentProfile.PAYMENT_METHOD_CHOICES` (users/models.py). -/
inductive PMethod where
  | mobile_money | bank_transfer
  deriving DecidableEq, Repr

/-- `PaymentProfile.VERIFICATION_STATUS_CHOICES` (users/models.py). -/
inductive VStatus where
  | pending_verification | verified | verification_failed
  deriving DecidableEq, Repr

/-- `users.models.PaymentProfile`: the fields `verify_bank_account`
touches. -/
structure PaymentProfile where
  method : PMethod
  status : VStatus
  is_verified : Bool
  verified_at : Option Int := none
  verification_initiated_at : Option Int := none
  verification_attempts : Nat := 0
  last_verification_attempt : Option Int := none
  failure_reason : String := ""
  deriving DecidableEq, Repr

/-- Outcome of `PaystackTransferService.resolve_account_number`, supplied
by the caller since it is an external HTTP call. -/
inductive ResolveOutcome where
  | ok (account_name : String)
  | failed (message : String)
  deriving DecidableEq, Repr

/-- Result of `verify_bank_account`: the saved profile, the fields of the
returned dict the claims mention, and how many times the external
account-resolution call was made on this run. -/
structure VerifyBankResult where
  profile : PaymentProfile
  success : Bool
  should_retry : Bool
  resolve_calls : Nat
  deriving DecidableEq, Repr

/-- `MAX_ATTEMPTS` in `verify_bank_account`. -/
def MAX_ATTEMPTS : Nat := 5

/-- `verify_bank_account` (users/paystack_service.py lines 288-400).
A non-`bank_transfer` profile is auto-verified and returned immediately —
before the attempt counter is touched and before `resolve_account_number`
is consulted.  For `bank_transfer` the attempt counter is reset on a first
attempt, incremented, and the resolve outcome decides between retryable
failure (below `MAX_ATTEMPTS`), terminal `verification_failed`, and
success.  The exact failure-reason strings are abbreviated to the resolve
message. -/
def verify_bank_account (p : PaymentProfile) (is_retry : Bool) (now : Int)
    (resolve : ResolveOutcome) : VerifyBankResult :=
  if p.method ≠ PMethod.bank_transfer then
    { profile := { p with status := VStatus.verified, is_verified := true,
                          verified_at := some now }
      success := true
      should_retry := false
      resolve_calls := 0 }
  else
    let p0 := if is_retry then p else { p with verification_attempts := 0 }
    let p1 := { p0 with verification_attempts := p0.verification_attempts + 1,
                        last_verification_attempt := some now }
    match resolve with
    | .failed msg =>
      if p1.verification_attempts < MAX_ATTEMPTS then
        { profile := { p1 with status := VStatus.pending_verification,
                               failure_reason := msg }
          success := false
          should_retry := true
          resolve_calls := 1 }
      else
        { profile := { p1 with status := VStatus.verification_failed,
                               failure_reason := msg }
          success := false
          should_retry := false
          resolve_calls := 1 }
    | .ok _name =>
      { profile := { p1 with status := VStatus.verified, is_verified := true,
                             verified_at := some now,
                             verification_initiated_at := some now }
        success := true
        should_retry := false
        resolve_calls := 1 }

/-! ## Concrete scenarios

A single event (organizer 9) with one ticket type: capacity 1, price
GHS 100, default purchase bounds, no sale window. -/

def tt1 : TicketType :=
  { id := 1, quantity := 1, tickets_sold := 0, price := ghs 100,
    min_purchase := 1, max_purchase := 10 }

def db0 : DB :=
  { ticket_types := [tt1], purchases := [], payments := [], tickets := [],
    revenues := [], next_id := 1 }

/-- `InitiatePurchaseView` flow: buyer reserves 1 ticket at time 0 and the
gateway initialization succeeds.  Purchase 1 (`pending`), ticket 2
(`reserved`), payment reference 3 (`pending`); `tickets_sold` untouched. -/
def sW1 : DB := (initiate_purchase db0 0 1 1 9 true true).db

/-- First `charge.success` webhook delivery for purchase 1 at time 5. -/
def sW2 : DB := handle_successful_payment sW1 1 5

/-- Duplicate delivery of the same webhook at time 6, after the Payment is
already `completed`. -/
def sW3 : DB := handle_successful_payment sW2 1 6

/-- `initiate_payment` flow on the same initial data: reserves 1 ticket
(incrementing `tickets_sold`), creating purchase 1 (`pending`) and payment
reference 2. -/
def sP1 : DB := (initiate_payment db0 0 1 1 9 true true).db

/-- The buyer polls `verify_payment` for reference 2 and Paystack reports
success. -/
def sP2 : DB := verify_payment_op sP1 2 GatewayVerify.success 5

/-- A `charge.success` webhook for purchase 1 of the `initiate_payment`
flow (Paystack sends the webhook for every successful charge; the metadata
of both flows carries the purchase id). -/
def sP2w : DB := handle_successful_payment sP1 1 5

/-- Organizer checks in the still-`reserved` ticket 2 of the unpaid
purchase from `sW1` through the routed dashboard endpoint. -/
def sC2 : DB := check_in_ticket sW1 2 true

/-- The purchase row created by both initiation flows in the scenarios:
purchase 1 for ticket type 1, quantity 1, price 100, created at time 0,
hence `reservation_expires_at = 600`, status `pending`. -/
def pendingPurchase1 : Purchase := mkPurchase 1 1 9 1 (ghs 100) 0 PStatus.pending

/-- The withdrawal/ledger state the transfer webhooks are exercised on:
withdrawal 1 is `processing` for organizer 9 and has reserved the single
revenue entry (status `on_hold`, linked, not yet withdrawn). -/
def wreq1 : WithdrawalRequest :=
  { id := 1, organizer_id := 9, requested_amount := ghs 80, transfer_fee := 0,
    final_amount := ghs 80, status := WStatus.processing }

def rev1 : OrganizerRevenue :=
  { id := 3, organizer_id := 9, purchase_id := 1, ticket_sales_amount := ghs 100,
    platform_fee := ghs 5, organizer_earnings := ghs 95, status := RevStatus.on_hold,
    is_withdrawn := false, withdrawal := some 1 }

def wdb0 : WDB := { withdrawals := [wreq1], revenues := [rev1] }

/-- A `transfer.reversed` webhook for withdrawal 1. -/
def wdbRev : WDB := handle_transfer_reversed wdb0 1

/-- A `transfer.success` webhook for withdrawal 1 at time 50. -/
def wdbSucc : WDB := handle_transfer_success wdb0 1 50

/-- An unverified mobile-money profile. -/
def mmProfile : PaymentProfile :=
  { method := PMethod.mobile_money, status := VStatus.pending_verification,
    is_verified := false }

/-- The (database, purchase) pair produced by the reservation phase of
`initiate_payment` on `db0` (quantity 1 at time 0); the default of `getD`
is never used since the reservation is accepted. -/
def resvP0 : DB × Purchase :=
  (initiatePaymentReserve db0 0 1 1 9 true).getD (db0, pendingPurchase1)

/-- The (database, purchase) pair produced by the reservation phase of
`InitiatePurchaseView` on `db0` (quantity 1 at time 0). -/
def resvW0 : DB × Purchase :=
  (initiatePurchaseReserve db0 0 1 1 9 true).getD (db0, pendingPurchase1)

/-- A revenue entry of organizer 9 that is available for withdrawal:
status `available`, not withdrawn, not linked to any withdrawal. -/
def availEntry : OrganizerRevenue :=
  { id := 4, organizer_id := 9, purchase_id := 1, ticket_sales_amount := ghs 100,
    platform_fee := ghs 5, organizer_earnings := ghs 95,
    status := RevStatus.available }

/-! ## Helper lemmas -/

/-- Mapping a conditional update over a list on which the condition never
holds is the identity. -/
theorem map_if_false {α : Type} (l : List α) (p : α → Bool) (f : α → α)
    (h : ∀ a ∈ l, p a = false) :
    l.map (fun a => if p a then f a else a) = l := by
  have : l.map (fun a => if p a then f a else a) = l.map id :=
    List.map_congr_left (fun a ha => by rw [h a ha]; rfl)
  rw [this, List.map_id]

/-- `find?` after `updateSold` on the same key: the found row, updated. -/
theorem find_updateSold (l : List TicketType) (i : Nat) (d : Int) :
    (updateSold l i d).find? (fun t => t.id == i)
      = (l.find? (fun t => t.id == i)).map
          (fun t => { t with tickets_sold := t.tickets_sold + d }) := by
  induction l with
  | nil => rfl
  | cons a l ih =>
    by_cases h : (a.id == i) = true
    · simp only [updateSold, List.map_cons, List.find?_cons, h, if_pos]
      simp [h]
    · have h' : (a.id == i) = false := by simpa using h
      simp only [updateSold, List.map_cons, List.find?_cons, h', if_neg, Bool.false_eq_true,
        not_false_eq_true, if_false]
      simpa [updateSold, h'] using ih

/-- Two opposite `updateSold` on the same key cancel. -/
theorem updateSold_updateSold (l : List TicketType) (i : Nat) (d e : Int) :
    updateSold (updateSold l i d) i e = updateSold l i (d + e) := by
  unfold updateSold
  rw [List.map_map]
  apply List.map_congr_left
  intro a _
  by_cases h : (a.id == i) = true
  · simp [Function.comp, h, Int.add_assoc]
  · have h' : (a.id == i) = false := by simpa using h
    simp [Function.comp, h']

theorem updateSold_zero (l : List TicketType) (i : Nat) :
    updateSold l i 0 = l := by
  have : ∀ t : TicketType,
      (if t.id == i then { t with tickets_sold := t.tickets_sold + 0 } else t) = t := by
    intro t; split <;> simp
  simp [updateSold, this]

/-- Inversion of a successful `initiate_payment` reservation phase: the
validations passed and the result is the incremented ticket type plus the
appended `pending` purchase. -/
theorem initiatePaymentReserve_eq_some {db : DB} {now : Int} {ttId qty org : Nat}
    {pub : Bool} {db1 : DB} {purchase : Purchase}
    (h : initiatePaymentReserve db now ttId qty org pub = some (db1, purchase)) :
    ∃ tt, findTicketType db ttId = some tt ∧
      purchase = mkPurchase db.next_id ttId org qty tt.price now PStatus.pending ∧
      db1 = { db with
                ticket_types := updateSold db.ticket_types ttId (qty : Int)
                purchases := db.purchases ++ [purchase]
                next_id := db.next_id + 1 } := by
  unfold initiatePaymentReserve at h
  split at h
  · exact absurd h (by simp)
  split at h
  · exact absurd h (by simp)
  split at h
  · exact absurd h (by simp)
  next tt hf =>
    split at h
    · exact absurd h (by simp)
    split at h
    · exact absurd h (by simp)
    split at h
    · exact absurd h (by simp)
    split at h
    · exact absurd h (by simp)
    rw [Option.some.injEq, Prod.mk.injEq] at h
    exact ⟨tt, hf, h.2.symm, by rw [← h.1, ← h.2]⟩

/-- Inversion of a successful `InitiatePurchaseView` reservation phase:
the validations passed, the ticket types are untouched, and the `reserved`
purchase and its `reserved` placeholder tickets are appended. -/
theorem initiatePurchaseReserve_eq_some {db : DB} {now : Int} {ttId qty org : Nat}
    {upc : Bool} {db1 : DB} {purchase : Purchase}
    (h : initiatePurchaseReserve db now ttId qty org upc = some (db1, purchase)) :
    ∃ tt, findTicketType db ttId = some tt ∧
      purchase = mkPurchase db.next_id ttId org qty tt.price now PStatus.reserved ∧
      db1 = { db with
                purchases := db.purchases ++ [purchase]
                tickets := db.tickets ++ mkReservedTickets (db.next_id + 1) purchase.id qty
                next_id := db.next_id + 1 + qty } := by
  unfold initiatePurchaseReserve at h
  split at h
  · exact absurd h (by simp)
  split at h
  · exact absurd h (by simp)
  split at h
  · exact absurd h (by simp)
  next tt hf =>
    split at h
    · exact absurd h (by simp)
    split at h
    · exact absurd h (by simp)
    split at h
    · exact absurd h (by simp)
    split at h
    · exact absurd h (by simp)
    rw [Option.some.injEq, Prod.mk.injEq] at h
    exact ⟨tt, hf, h.2.symm, by rw [← h.1, ← h.2]⟩

/-- `Purchase.save` with a non-`completed` status stores the row and has
no revenue side effect. -/
theorem purchaseSave_not_completed (db : DB) (p : Purchase)
    (hp : p.status ≠ PStatus.completed) :
    purchaseSave db p
      = { db with purchases := db.purchases.map (fun q => if q.id == p.id then p else q) } := by
  unfold purchaseSave
  have hb : (p.status == PStatus.completed) = false := by simpa using hp
  cases hfp : findPurchase db p.id <;> simp [hfp, hb]

/-- Every placeholder ticket minted by `mkReservedTickets` carries the
purchase id, so a conditional status update over them is unconditional. -/
theorem mkReservedTickets_map_status (firstId pid qty : Nat) (st : TStatus) :
    (mkReservedTickets firstId pid qty).map
        (fun t => if t.purchase_id == pid then { t with status := st } else t)
      = (mkReservedTickets firstId pid qty).map (fun t => { t with status := st }) := by
  apply List.map_congr_left
  intro t ht
  unfold mkReservedTickets at ht
  obtain ⟨k, -, rfl⟩ := List.mem_map.mp ht
  simp

/-! ## Claim theorems -/

/-- C1.  The claim states that a second settlement attempt on an
already-completed Payment performs zero additional state mutation on
either path.  The code violates it: after the first `charge.success`
webhook settles purchase 1 (Payment `completed`, `tickets_sold = 1`), a
duplicate delivery of the same webhook — the handler has no idempotency
check — increments the TicketType's `tickets_sold` again, to 2. -/
theorem settlement_webhook_not_idempotent :
    (findPaymentByPurchase sW2 1).map (fun p => p.status) = some PayStatus.completed ∧
    (findPurchase sW2 1).map (fun p => p.status) = some PStatus.completed ∧
    verify_payment_op sW2 3 GatewayVerify.success 7 = sW2 ∧
    soldOf sW2 1 = some 1 ∧ soldOf sW3 1 = some 2 := by decide

/-- C2.  The claim states that exactly one OrganizerRevenue entry exists
for a completed Purchase.  The code violates it on the `verify_payment`
path: `purchase.save()` auto-creates one revenue record on the transition
to `completed` (models.py) and the view then explicitly creates a second
identical one, so purchase 1 (subtotal 100) ends with TWO entries — each
with the claimed `platform_fee = 100 × 0.05 = 5` and
`organizer_earnings = 95`. -/
theorem verify_creates_two_revenue_records :
    (findPurchase sP2 1).map (fun p => p.status) = some PStatus.completed ∧
    (sP2.revenues.filter (fun r => r.purchase_id == 1)).length = 2 ∧
    ∀ r ∈ sP2.revenues.filter (fun r => r.purchase_id == 1),
      r.ticket_sales_amount = ghs 100 ∧ r.platform_fee = ghs 5 ∧ r.organizer_earnings = ghs 95 := by
  decide

/-- C3.  The claim states `0 ≤ tickets_sold ≤ quantity` in every reachable
state.  Sequential counterexample on a ticket type with capacity 1:
`initiate_payment` reserves the one ticket (`tickets_sold = 1`) and the
`charge.success` webhook for the same purchase then unconditionally adds
the quantity again, reaching `tickets_sold = 2 > quantity = 1`. -/
theorem oversell_reachable :
    soldOf sP1 1 = some 1 ∧
    soldOf sP2w 1 = some 2 ∧
    (findTicketType sP2w 1).map (fun t => t.quantity) = some 1 ∧
    ∃ t ∈ sP2w.ticket_types, ¬ t.tickets_sold ≤ (t.quantity : Int) := by decide

/-- C4.  The claim states that every `paid`/`used` Ticket belongs to a
`completed` Purchase.  The routed check-in endpoint
(`CheckInTicketView.post`) never checks the ticket's payment status, so
checking in the still-`reserved` ticket 2 of the unpaid (`pending`)
purchase 1 yields a `used` ticket whose Purchase is not `completed`. -/
theorem used_ticket_without_completed_purchase :
    (sC2.tickets.find? (fun t => t.id == 2)).map (fun t => t.status) = some TStatus.used ∧
    (sC2.tickets.find? (fun t => t.id == 2)).map (fun t => t.purchase_id) = some 1 ∧
    (findPurchase sC2 1).map (fun p => p.status) = some PStatus.pending ∧
    PStatus.pending ≠ PStatus.completed := by decide

/-- C7.  The claim states that an unpaid Purchase past its
reservation-expiry, once swept or observed, has its ticket type's sold
count decreased by its quantity.  No sweep exists in the repository; the
only expiry-related code is the read-only property `Purchase.is_expired`,
which mutates nothing — and even it reports `False` for the `pending`
purchase below, because it only recognises status `reserved`.  At time
1000, purchase 1 of the `initiate_payment` flow (expiry 600, status
`pending`) still holds its reserved inventory (`tickets_sold = 1`); even
explicit user cancellation expires the purchase WITHOUT releasing the
inventory (this flow minted no ticket rows, and the release is computed
from released ticket rows). -/
theorem expired_pending_purchase_holds_inventory :
    findPurchase sP1 1 = some pendingPurchase1 ∧
    pendingPurchase1.status = PStatus.pending ∧
    (1000 : Int) > pendingPurchase1.reservation_expires_at ∧
    purchaseIsExpired 1000 pendingPurchase1 = false ∧
    soldOf sP1 1 = some 1 ∧
    soldOf (cancel_purchase sP1 1) 1 = some 1 ∧
    (findPurchase (cancel_purchase sP1 1) 1).map (fun p => p.status)
      = some PStatus.expired := by decide

/-- C8.  The claim states that `transfer.success` marks linked entries
status `withdrawn`, and that `transfer.failed`/`transfer.reversed` release
linked entries back to `available`, leaving none stuck `on_hold`.  The
code violates both halves that the theorem exercises: `transfer.reversed`
leaves the reserved entry exactly as it was (`on_hold`, still linked) —
despite its own "Release reserved revenue" comment it only clears
`is_withdrawn` on already-withdrawn rows — and `transfer.success` leaves
the entry's status `on_hold` (only the `is_withdrawn` flag is set, never
status `withdrawn`). -/
theorem transfer_reversed_leaves_entry_on_hold :
    (findWithdrawal wdbRev 1).map (fun w => w.status) = some WStatus.failed ∧
    wdbRev.revenues = [rev1] ∧
    rev1.status = RevStatus.on_hold ∧ rev1.withdrawal = some 1 ∧
    (findWithdrawal wdbSucc 1).map (fun w => w.status) = some WStatus.completed ∧
    wdbSucc.revenues.map (fun e => e.status) = [RevStatus.on_hold] ∧
    wdbSucc.revenues.map (fun e => e.is_withdrawn) = [true] := by decide

/-- C10.  A payment profile whose method is not `bank_transfer` is marked
verified immediately by `verify_bank_account` — status `verified`,
`is_verified = True`, `verified_at` stamped — returning success without
invoking the external account-resolution call and without touching the
attempt counter. -/
theorem non_bank_profile_auto_verified (p : PaymentProfile) (is_retry : Bool)
    (now : Int) (r : ResolveOutcome) (h : p.method ≠ PMethod.bank_transfer) :
    (verify_bank_account p is_retry now r).success = true ∧
    (verify_bank_account p is_retry now r).should_retry = false ∧
    (verify_bank_account p is_retry now r).resolve_calls = 0 ∧
    (verify_bank_account p is_retry now r).profile.status = VStatus.verified ∧
    (verify_bank_account p is_retry now r).profile.is_verified = true ∧
    (verify_bank_account p is_retry now r).profile.verified_at = some now ∧
    (verify_bank_account p is_retry now r).profile.verification_attempts
      = p.verification_attempts := by
  simp [verify_bank_account, h]

/-- C10 witness: `non_bank_profile_auto_verified` applied to a concrete
mobile-money profile at time 42, with a resolve oracle that would fail if
it were ever consulted. -/
theorem non_bank_profile_auto_verified_witness :
    (verify_bank_account mmProfile false 42 (ResolveOutcome.failed "down")).success = true ∧
    (verify_bank_account mmProfile false 42 (ResolveOutcome.failed "down")).should_retry = false ∧
    (verify_bank_account mmProfile false 42 (ResolveOutcome.failed "down")).resolve_calls = 0 ∧
    (verify_bank_account mmProfile false 42 (ResolveOutcome.failed "down")).profile.status
      = VStatus.verified ∧
    (verify_bank_account mmProfile false 42 (ResolveOutcome.failed "down")).profile.is_verified
      = true ∧
    (verify_bank_account mmProfile false 42 (ResolveOutcome.failed "down")).profile.verified_at
      = some 42 ∧
    (verify_bank_account mmProfile false 42 (ResolveOutcome.failed "down")).profile.verification_attempts
      = mmProfile.verification_attempts :=
  non_bank_profile_auto_verified mmProfile false 42 (ResolveOutcome.failed "down") (by decide)

/-- C5 counterexample.  On `db0` the `InitiatePurchaseView` endpoint
accepts the reservation of 1 ticket, yet `tickets_sold` is still 0 both at
the moment the gateway is called (the reservation phase) and after the
whole request — not `0 + 1` as the claim requires of both endpoints. -/
theorem purchase_endpoint_reserves_without_increment :
    (initiatePurchaseReserve db0 0 1 1 9 true).isSome = true ∧
    soldOf resvW0.1 1 = some 0 ∧
    ¬ soldOf resvW0.1 1 = some (0 + 1) ∧
    soldOf (initiate_purchase db0 0 1 1 9 true true).db 1 = some 0 := by decide

/-- C5 amended.  Only the `initiate_payment` endpoint increments the
ticket type's `tickets_sold` by the requested quantity at reservation time,
before the gateway call; the `InitiatePurchaseView` endpoint leaves every
ticket type untouched at reservation time (its increment happens only at
webhook settlement). -/
theorem reservation_increment_endpoint_asymmetry :
    (∀ (db : DB) (now : Int) (ttId qty org : Nat) (pub : Bool) (db1 : DB)
       (purchase : Purchase) (t : TicketType),
       initiatePaymentReserve db now ttId qty org pub = some (db1, purchase) →
       findTicketType db ttId = some t →
       findTicketType db1 ttId
         = some { t with tickets_sold := t.tickets_sold + (qty : Int) }) ∧
    (∀ (db : DB) (now : Int) (ttId qty org : Nat) (upc : Bool) (db1 : DB)
       (purchase : Purchase),
       initiatePurchaseReserve db now ttId qty org upc = some (db1, purchase) →
       db1.ticket_types = db.ticket_types) := by
  constructor
  · intro db now ttId qty org pub db1 purchase t h hf
    obtain ⟨tt, hf2, hp, hdb⟩ := initiatePaymentReserve_eq_some h
    subst hdb
    unfold findTicketType at hf ⊢
    rw [show ({ db with
                  ticket_types := updateSold db.ticket_types ttId (qty : Int)
                  purchases := db.purchases ++ [purchase]
                  next_id := db.next_id + 1 } : DB).ticket_types
          = updateSold db.ticket_types ttId (qty : Int) from rfl]
    rw [find_updateSold, hf]
    rfl
  · intro db now ttId qty org upc db1 purchase h
    obtain ⟨tt, _, _, hdb⟩ := initiatePurchaseReserve_eq_some h
    subst hdb
    rfl

/-- C5 witness: the amended theorem applied to `db0` with quantity 1 — the
`initiate_payment` reservation phase shows `tt1` with `tickets_sold`
incremented, and the `InitiatePurchaseView` reservation phase leaves the
ticket types of `db0` unchanged. -/
theorem reservation_increment_endpoint_asymmetry_witness :
    findTicketType resvP0.1 1
      = some { tt1 with tickets_sold := tt1.tickets_sold + (1 : Int) } ∧
    resvW0.1.ticket_types = db0.ticket_types :=
  ⟨reservation_increment_endpoint_asymmetry.1 db0 0 1 1 9 true resvP0.1 resvP0.2 tt1
    (by decide) (by decide),
   reservation_increment_endpoint_asymmetry.2 db0 0 1 1 9 true resvW0.1 resvW0.2
    (by decide)⟩

/-- C6 counterexample.  On `db0`, a gateway-initialization failure leaves
NO Purchase at all on the `initiate_payment` endpoint (the row is deleted,
so no Purchase in `failed` status exists, contradicting the claim), and on
the `InitiatePurchaseView` endpoint the tickets end in `expired` — not
`failed`, which is not even a `Ticket` status choice. -/
theorem gateway_failure_no_failed_purchase :
    (initiate_payment db0 0 1 1 9 true false).db.purchases = [] ∧
    (¬ ∃ p ∈ (initiate_payment db0 0 1 1 9 true false).db.purchases,
        p.status = PStatus.failed) ∧
    (initiate_purchase db0 0 1 1 9 true false).db.tickets.map (fun t => t.status)
      = [TStatus.expired] := by decide

/-- C6 amended.  When gateway initialization fails: the `initiate_payment`
endpoint rolls back atomically to the exact pre-request state (inventory
increment undone, Purchase deleted, no Payment) — only the id sequence
advances; the `InitiatePurchaseView` endpoint (which reserved no
inventory) leaves the ticket types, payments and revenues untouched,
keeps the Purchase with status `failed`, and marks its placeholder
tickets `expired`.  The freshness hypotheses state that the generated id
is not already taken, which the primary-key sequence guarantees. -/
theorem gateway_failure_rollback_shapes :
    (∀ (db : DB) (now : Int) (ttId qty org : Nat) (pub : Bool) (db1 : DB)
       (purchase : Purchase),
       initiatePaymentReserve db now ttId qty org pub = some (db1, purchase) →
       (∀ p ∈ db.purchases, p.id ≠ db.next_id) →
       initiate_payment db now ttId qty org pub false
         = .err { db with next_id := db.next_id + 1 }) ∧
    (∀ (db : DB) (now : Int) (ttId qty org : Nat) (upc : Bool) (db1 : DB)
       (purchase : Purchase),
       initiatePurchaseReserve db now ttId qty org upc = some (db1, purchase) →
       (∀ p ∈ db.purchases, p.id ≠ db.next_id) →
       (∀ t ∈ db.tickets, t.purchase_id ≠ db.next_id) →
       initiate_purchase db now ttId qty org upc false
         = .err { db with
                    purchases := db.purchases ++ [{ purchase with status := PStatus.failed }]
                    tickets := db.tickets ++
                      (mkReservedTickets (db.next_id + 1) purchase.id qty).map
                        (fun t => { t with status := TStatus.expired })
                    next_id := db.next_id + 1 + qty }) := by
  constructor
  · intro db now ttId qty org pub db1 purchase h hfresh
    obtain ⟨tt, hf, hp, hdb⟩ := initiatePaymentReserve_eq_some h
    have hid : purchase.id = db.next_id := by rw [hp]; rfl
    have h1 : updateSold (updateSold db.ticket_types ttId (qty : Int)) ttId (-(qty : Int))
        = db.ticket_types := by
      rw [updateSold_updateSold, Int.add_right_neg, updateSold_zero]
    have h2 : (db.purchases ++ [purchase]).filter (fun p => p.id != purchase.id)
        = db.purchases := by
      rw [List.filter_append]
      have hp1 : db.purchases.filter (fun p => p.id != purchase.id) = db.purchases :=
        List.filter_eq_self.mpr (fun p hpmem => by simp [hid, hfresh p hpmem])
      have hp2 : [purchase].filter (fun p => p.id != purchase.id) = ([] : List Purchase) := by
        simp [List.filter]
      rw [hp1, hp2, List.append_nil]
    subst hdb
    simp only [initiate_payment, h, Bool.false_eq_true, if_false]
    simp only [h1, h2]
  · intro db now ttId qty org upc db1 purchase h hfresh1 hfresh2
    obtain ⟨tt, hf, hp, hdb⟩ := initiatePurchaseReserve_eq_some h
    have hid : purchase.id = db.next_id := by rw [hp]; rfl
    have hsave : purchaseSave db1 { purchase with status := PStatus.failed }
        = { db1 with purchases := db1.purchases.map (fun q =>
              if q.id == purchase.id then { purchase with status := PStatus.failed } else q) } := by
      exact purchaseSave_not_completed db1 _ (by simp)
    have hpur : (db.purchases ++ [purchase]).map (fun q =>
          if q.id == purchase.id then { purchase with status := PStatus.failed } else q)
        = db.purchases ++ [{ purchase with status := PStatus.failed }] := by
      rw [List.map_append]
      congr 1
      · exact map_if_false db.purchases _ _ (fun q hq => by simp [hid, hfresh1 q hq])
      · simp
    have htick : (db.tickets ++ mkReservedTickets (db.next_id + 1) purchase.id qty).map
          (fun t => if t.purchase_id == purchase.id then { t with status := TStatus.expired } else t)
        = db.tickets ++
            (mkReservedTickets (db.next_id + 1) purchase.id qty).map
              (fun t => { t with status := TStatus.expired }) := by
      rw [List.map_append]
      congr 1
      · exact map_if_false db.tickets _ _ (fun t ht => by simp [hid, hfresh2 t ht])
      · exact mkReservedTickets_map_status _ _ _ _
    subst hdb
    simp only [initiate_purchase, h, Bool.false_eq_true, if_false, hsave]
    simp only [hpur, htick]

/-- C6 witness: the amended theorem applied to `db0` with quantity 1 and a
failing gateway, on both endpoints. -/
theorem gateway_failure_rollback_shapes_witness :
    initiate_payment db0 0 1 1 9 true false
      = .err { db0 with next_id := db0.next_id + 1 } ∧
    initiate_purchase db0 0 1 1 9 true false
      = .err { db0 with
                 purchases := db0.purchases ++ [{ resvW0.2 with status := PStatus.failed }]
                 tickets := db0.tickets ++
                   (mkReservedTickets (db0.next_id + 1) resvW0.2.id 1).map
                     (fun t => { t with status := TStatus.expired })
                 next_id := db0.next_id + 1 + 1 } :=
  ⟨gateway_failure_rollback_shapes.1 db0 0 1 1 9 true resvP0.1 resvP0.2
      (by decide) (by decide),
   gateway_failure_rollback_shapes.2 db0 0 1 1 9 true resvW0.1 resvW0.2
      (by decide) (by decide) (by decide)⟩

/-- A list with no entry linked to `wid` contributes nothing to
`linkedEarnings wid`. -/
theorem linkedEarnings_eq_zero {wid : Nat} {l : List OrganizerRevenue}
    (h : ∀ e ∈ l, e.withdrawal ≠ some wid) : linkedEarnings wid l = 0 := by
  unfold linkedEarnings
  have : l.filter (fun e => e.withdrawal == some wid) = [] :=
    List.filter_eq_nil_iff.mpr (fun e he => by simp [h e he])
  rw [this]
  rfl

theorem linkedEarnings_cons_pos {wid : Nat} {e : OrganizerRevenue}
    (l : List OrganizerRevenue) (h : e.withdrawal = some wid) :
    linkedEarnings wid (e :: l) = e.organizer_earnings + linkedEarnings wid l := by
  simp [linkedEarnings, List.filter_cons, h]

theorem linkedEarnings_cons_neg {wid : Nat} {e : OrganizerRevenue}
    (l : List OrganizerRevenue) (h : e.withdrawal ≠ some wid) :
    linkedEarnings wid (e :: l) = linkedEarnings wid l := by
  simp [linkedEarnings, List.filter_cons, h]

theorem eligibleSum_cons_pos {org : Nat} {e : OrganizerRevenue}
    (l : List OrganizerRevenue) (h : revenueEligible org e = true) :
    eligibleSum org (e :: l) = e.organizer_earnings + eligibleSum org l := by
  simp [eligibleSum, List.filter_cons, h]

theorem eligibleSum_cons_neg {org : Nat} {e : OrganizerRevenue}
    (l : List OrganizerRevenue) (h : revenueEligible org e = false) :
    eligibleSum org (e :: l) = eligibleSum org l := by
  simp [eligibleSum, List.filter_cons, h]

/-- An eligible entry is not linked to any withdrawal. -/
theorem revenueEligible_withdrawal_none {org : Nat} {e : OrganizerRevenue}
    (h : revenueEligible org e = true) : e.withdrawal = none := by
  unfold revenueEligible at h
  simp only [Bool.and_eq_true, beq_iff_eq] at h
  exact h.2

/-- A pair drawn from a list zipped with itself has equal components. -/
theorem mem_zip_self {α : Type} {l : List α} {p : α × α} (h : p ∈ l.zip l) :
    p.1 = p.2 := by
  induction l with
  | nil => cases h
  | cons a l ih =>
    rw [List.zip_cons_cons] at h
    rcases List.mem_cons.mp h with h1 | h1
    · rw [h1]
    · exact ih h1

/-- The greedy loop keeps `amount_reserved` covering: if the available
eligible earnings (plus what is already reserved) cover the requested
amount, then so do the entries the loop actually links. -/
theorem reserveRevenueAux_covers (wid org : Nat) (amount : Money) :
    ∀ (l : List OrganizerRevenue) (acc : Money),
      (∀ e ∈ l, e.withdrawal ≠ some wid) →
      amount ≤ acc + eligibleSum org l →
      amount ≤ acc + linkedEarnings wid (reserveRevenueAux wid org amount l acc) := by
  intro l
  induction l with
  | nil =>
    intro acc _ hbal
    simpa [reserveRevenueAux, linkedEarnings, eligibleSum] using hbal
  | cons e rest ih =>
    intro acc hfresh hbal
    by_cases hbreak : amount ≤ acc
    · rw [reserveRevenueAux, if_pos hbreak, linkedEarnings_eq_zero hfresh]
      linarith
    · rw [reserveRevenueAux, if_neg hbreak]
      by_cases helig : revenueEligible org e = true
      · rw [if_pos helig]
        rw [linkedEarnings_cons_pos _ (show
            ({ e with withdrawal := some wid, status := RevStatus.on_hold } :
              OrganizerRevenue).withdrawal = some wid from rfl)]
        have hrest : ∀ e' ∈ rest, e'.withdrawal ≠ some wid :=
          fun e' he' => hfresh e' (List.mem_cons_of_mem e he')
        have := ih (acc + e.organizer_earnings) hrest
          (by rw [eligibleSum_cons_pos rest helig] at hbal; linarith)
        linarith
      · have helig' : revenueEligible org e = false := by simpa using helig
        rw [if_neg (by simp [helig'])]
        have hhead : e.withdrawal ≠ some wid := hfresh e (List.mem_cons_self e rest)
        rw [linkedEarnings_cons_neg _ hhead]
        have hrest : ∀ e' ∈ rest, e'.withdrawal ≠ some wid :=
          fun e' he' => hfresh e' (List.mem_cons_of_mem e he')
        exact ih acc hrest (by rw [eligibleSum_cons_neg rest helig'] at hbal; exact hbal)

/-- The greedy loop changes the withdrawal link of a row only from
"unlinked" to "linked to this withdrawal". -/
theorem reserveRevenueAux_link_change (wid org : Nat) (amount : Money) :
    ∀ (l : List OrganizerRevenue) (acc : Money),
      ∀ p ∈ l.zip (reserveRevenueAux wid org amount l acc),
        p.2.withdrawal ≠ p.1.withdrawal →
        p.1.withdrawal = none ∧ p.2.withdrawal = some wid := by
  intro l
  induction l with
  | nil => intro acc p hp; cases hp
  | cons e rest ih =>
    intro acc p hp hne
    rw [reserveRevenueAux] at hp
    split at hp
    · exact absurd (mem_zip_self hp) (fun h => hne (by rw [h]))
    · split at hp
      · next helig =>
        rw [List.zip_cons_cons] at hp
        rcases List.mem_cons.mp hp with h1 | h1
        · subst h1
          exact ⟨revenueEligible_withdrawal_none helig, rfl⟩
        · exact ih (acc + e.organizer_earnings) p h1 hne
      · rw [List.zip_cons_cons] at hp
        rcases List.mem_cons.mp hp with h1 | h1
        · subst h1
          exact absurd rfl hne
        · exact ih acc p h1 hne

/-- C9.  `_reserve_revenue` on entries none of which is linked to the new
withdrawal (it is freshly created): when the requested amount is covered by
the organizer's available, unreserved entries, the greedy oldest-first walk
links entries whose `organizer_earnings` sum to at least the requested
amount; and the only link change it makes to any row is from "no
withdrawal" to "this withdrawal" (a row holds at most one link, so no
entry becomes linked to two non-terminal withdrawals). -/
theorem withdrawal_reservation_covers (entries : List OrganizerRevenue)
    (wid org : Nat) (amount : Money)
    (hfresh : ∀ e ∈ entries, e.withdrawal ≠ some wid)
    (hbal : amount ≤ eligibleSum org entries) :
    amount ≤ linkedEarnings wid (reserve_revenue entries wid org amount) ∧
    ∀ p ∈ entries.zip (reserve_revenue entries wid org amount),
      p.2.withdrawal ≠ p.1.withdrawal →
      p.1.withdrawal = none ∧ p.2.withdrawal = some wid := by
  constructor
  · have := reserveRevenueAux_covers wid org amount entries 0 hfresh (by simpa using hbal)
    simpa [reserve_revenue] using this
  · exact reserveRevenueAux_link_change wid org amount entries 0

/-- C9 witness: `withdrawal_reservation_covers` applied to a single
available entry of organizer 9 worth GHS 95, reserving for withdrawal 7
with a requested amount of GHS 50. -/
theorem withdrawal_reservation_covers_witness :
    ghs 50 ≤ linkedEarnings 7 (reserve_revenue [availEntry] 7 9 (ghs 50)) :=
  (withdrawal_reservation_covers [availEntry] 7 9 (ghs 50)
    (by decide) (by decide)).1

end Cafa
